import Mathlib

/-!
Shallow embedding of the railway ticket-office back office
(`tickets/models.py`, `tickets/repositories.py`).

Monetary values (`Decimal` in the source) are modelled as exact rationals
(`ℚ`); every decimal number the source manipulates is such a rational.
The relational store is modelled as an explicit `DB` record holding the
rows of each table; Django model/queryset operations become functions on
`DB`.  Fields of the source models that no claim touches (names, stations,
dates as `DateTime`, passports, phone numbers) are omitted; `purchase_date`
is kept as an abstract timestamp (`Nat`) supplied by the caller at
creation time (`auto_now_add`).
-/

/-- A row of the `Passenger` table (`age` is a `PositiveIntegerField`,
i.e. a natural number). -/
structure Passenger where
  id : Nat
  age : Nat
deriving DecidableEq, Repr

/-- A row of the `Cashier` table. -/
structure Cashier where
  id : Nat
deriving DecidableEq, Repr

/-- A row of the `Trip` table: `price` is the base fare
(`PositiveIntegerField`, default 100) and `capacity` the seat count
(`PositiveIntegerField`, default 100). -/
structure Trip where
  id : Nat
  price : Nat
  capacity : Nat
deriving DecidableEq, Repr

/-- A row of the `Ticket` table.  `base_price` is `none` while unset
(the field is `blank=True`; `save` populates it).  `cashierId` is nullable
(`on_delete=SET_NULL`). -/
structure Ticket where
  id : Nat
  passengerId : Nat
  cashierId : Option Nat
  tripId : Nat
  purchase_date : Nat
  base_price : Option ℚ
  paid_amount : ℚ
  payment_method : Option String
deriving DecidableEq, Repr

/-- The relational store: one list of rows per table. -/
structure DB where
  passengers : List Passenger
  cashiers : List Cashier
  trips : List Trip
  tickets : List Ticket
deriving DecidableEq, Repr

/-- `Ticket.TAX = Decimal('0.2')`. -/
def TAX : ℚ := 2/10

/-- `Ticket.calculate_discount` (the second definition in the source, which
shadows the identically-valued first one): `Decimal('0.5')` below 18,
`Decimal('0.7')` above 60, `Decimal('1.0')` otherwise. -/
def Ticket.calculate_discount (age : Nat) : ℚ :=
  if age < 18 then 5/10
  else if age > 60 then 7/10
  else 1

/-- Python truthiness of the `base_price` field: falsy when the attribute
is unset (`None`) or equal to `Decimal(0)`. -/
def truthy : Option ℚ → Bool
  | none => false
  | some x => decide (x ≠ 0)

/-- Python `round(x, 2)` on a `Decimal`: quantize to two decimal places
with the default `ROUND_HALF_EVEN` rounding mode. -/
def roundHalfEven2 (x : ℚ) : ℚ :=
  let f : ℤ := ⌊x * 100⌋
  let r : ℚ := x * 100 - (f : ℚ)
  let n : ℤ :=
    if r < 1/2 then f
    else if 1/2 < r then f + 1
    else if f % 2 = 0 then f else f + 1
  (n : ℚ) / 100

/-- Step 1 of the `Ticket.price` property: `current_base` is the ticket's
`base_price` when truthy, otherwise `Decimal(self.trip.price)`. -/
def resolve_base (base_price : Option ℚ) (trip_price : Nat) : ℚ :=
  if truthy base_price then base_price.getD 0 else (trip_price : ℚ)

/-- The `Ticket.price` property as a function of the fields it reads:
`round(current_base * discount * (1 + TAX), 2)`. -/
def Ticket.price (base_price : Option ℚ) (trip_price : Nat) (age : Nat) : ℚ :=
  roundHalfEven2
    (resolve_base base_price trip_price * Ticket.calculate_discount age * (1 + TAX))

/-- Foreign-key dereference `ticket.trip`: look the trip up by id. -/
def findTrip (db : DB) (tid : Nat) : Option Trip :=
  db.trips.find? (fun t => t.id == tid)

/-- Foreign-key dereference `ticket.passenger`. -/
def findPassenger (db : DB) (pid : Nat) : Option Passenger :=
  db.passengers.find? (fun p => p.id == pid)

/-- The `Trip.available_seats` property:
`capacity - self.tickets.count()` (count of tickets referencing the trip). -/
def Trip.available_seats (db : DB) (t : Trip) : Int :=
  (t.capacity : Int) - ((db.tickets.filter (fun tk => tk.tripId == t.id)).length : Int)

/-- Errors a `Ticket` save can surface: the `ValidationError` raised by
`Ticket.clean` when no seats are left (it carries the trip in its message),
and the ORM error for a dangling foreign key. -/
inductive SaveError where
  | noSeatsAvailable (tripId : Nat)
  | relatedObjectMissing
deriving DecidableEq, Repr

/-- The in-memory field values of a `Ticket` instance about to be saved
(everything except the primary key, which is passed separately). -/
structure TicketData where
  passengerId : Nat
  cashierId : Option Nat
  tripId : Nat
  purchase_date : Nat
  base_price : Option ℚ
  payment_method : Option String
deriving DecidableEq, Repr

/-- `Ticket.clean`: only when the instance has no primary key yet
(`self.pk is None`) check `self.trip.available_seats <= 0` and raise. -/
def Ticket.clean (db : DB) (pk : Option Nat) (trip : Trip) : Option SaveError :=
  match pk with
  | none =>
      if Trip.available_seats db trip ≤ 0 then some (.noSeatsAvailable trip.id) else none
  | some _ => none

/-- The row written by `super().save()`: all instance fields, with
`base_price` and `paid_amount` as just recomputed by `Ticket.save`. -/
def mkSavedTicket (d : TicketData) (i pd : Nat) (bp paid : ℚ) : Ticket :=
  { id := i, passengerId := d.passengerId, cashierId := d.cashierId,
    tripId := d.tripId, purchase_date := pd, base_price := some bp,
    paid_amount := paid, payment_method := d.payment_method }

/-- `Ticket.save`: default `base_price` from `trip.price` when falsy,
recompute `paid_amount = self.price`, run `full_clean` (hence
`Ticket.clean`), then persist — inserting a fresh row (`pk = none`,
`purchase_date` set by `auto_now_add` to `now`) or updating the existing
row (`pk = some i`).  On error nothing is persisted. -/
def Ticket.save (db : DB) (pk : Option Nat) (d : TicketData) (newId now : Nat) :
    Except SaveError DB :=
  match findTrip db d.tripId, findPassenger db d.passengerId with
  | some trip, some p =>
      let bp : ℚ := resolve_base d.base_price trip.price
      let paid : ℚ := Ticket.price (some bp) trip.price p.age
      match Ticket.clean db pk trip with
      | some e => .error e
      | none =>
          match pk with
          | none =>
              .ok { db with tickets := db.tickets ++ [mkSavedTicket d newId now bp paid] }
          | some i =>
              .ok { db with tickets := db.tickets.map (fun u =>
                      if u.id = i then mkSavedTicket d i d.purchase_date bp paid else u) }
  | _, _ => .error .relatedObjectMissing

/-- `RepositoryManager.trips.update(tid, price=newPrice)` restricted to the
`Trip` table: edit the trip's base fare.  Tickets are untouched. -/
def Trip.update_price (db : DB) (tid newPrice : Nat) : DB :=
  { db with trips := db.trips.map (fun t => if t.id = tid then { t with price := newPrice } else t) }

/-- `RepositoryManager.passengers.update(pid, age=newAge)`: edit a
passenger's age.  Tickets are untouched. -/
def Passenger.update_age (db : DB) (pid newAge : Nat) : DB :=
  { db with passengers :=
      db.passengers.map (fun p => if p.id = pid then { p with age := newAge } else p) }

/-- Deleting a `Passenger`: the `on_delete=CASCADE` option on
`Ticket.passenger` removes every ticket referencing the passenger. -/
def Passenger.delete (db : DB) (pid : Nat) : DB :=
  { db with passengers := db.passengers.filter (fun p => p.id != pid),
            tickets := db.tickets.filter (fun tk => tk.passengerId != pid) }

/-- Effect of `on_delete=SET_NULL` on one ticket row: null the cashier
reference when it points at the deleted cashier, keep the row otherwise. -/
def nullifyCashier (cid : Nat) (tk : Ticket) : Ticket :=
  if tk.cashierId = some cid then { tk with cashierId := none } else tk

/-- Deleting a `Cashier`: the `on_delete=SET_NULL` option on
`Ticket.cashier` keeps every sold ticket, nulling its cashier reference. -/
def Cashier.delete (db : DB) (cid : Nat) : DB :=
  { db with cashiers := db.cashiers.filter (fun c => c.id != cid),
            tickets := db.tickets.map (nullifyCashier cid) }

/-- SQL comparison used by `ORDER BY`: `NULL` sorts below every value
(so with `DESC`, `NULL` rows come last, as SQLite does). -/
def obotLE : Option ℚ → Option ℚ → Bool
  | none, _ => true
  | some _, none => false
  | some x, some y => decide (x ≤ y)

/-- `ORDER BY key DESC`: row `a` may precede row `b` when `key b ≤ key a`. -/
def descOrd {α : Type} (key : α → Option ℚ) (a b : α) : Prop :=
  obotLE (key b) (key a) = true

instance descOrdDecidable {α : Type} (key : α → Option ℚ) : DecidableRel (descOrd key) :=
  fun x y => inferInstanceAs (Decidable (obotLE (key y) (key x) = true))

instance descOrdTotal {α : Type} (key : α → Option ℚ) : IsTotal α (descOrd key) := by
  constructor
  intro a b
  unfold descOrd obotLE
  rcases key a with _ | x <;> rcases key b with _ | y <;> simp
  exact le_total y x

instance descOrdTrans {α : Type} (key : α → Option ℚ) : IsTrans α (descOrd key) := by
  constructor
  intro a b c hab hbc
  unfold descOrd obotLE at *
  rcases ka : key a with _ | x <;> rcases kb : key b with _ | y <;>
    rcases kc : key c with _ | z <;> simp_all
  exact le_trans hbc hab

/-- A row of the `revenue_by_trip` report (query 1):
`Trip.objects.annotate(total_revenue=Sum(..), tickets_sold=Count(..))`.
`Sum` over an empty join is SQL `NULL` (`none`). -/
structure RevenueRow where
  tripId : Nat
  total_revenue : Option ℚ
  tickets_sold : Nat
deriving DecidableEq, Repr

/-- The annotated row produced for one trip by query 1. -/
def revenueRowOf (db : DB) (tid : Nat) : RevenueRow :=
  let ts := db.tickets.filter (fun tk => tk.tripId == tid)
  { tripId := tid,
    total_revenue := if ts.isEmpty then none else some (ts.map (fun tk => tk.paid_amount)).sum,
    tickets_sold := ts.length }

/-- Query 1, `revenue_by_trip`: every trip annotated with the sum of
`paid_amount` over its tickets and the ticket count, `order_by('-total_revenue')`. -/
def revenue_by_trip (db : DB) : List RevenueRow :=
  List.insertionSort (descOrd (fun r => r.total_revenue))
    (db.trips.map (fun t => revenueRowOf db t.id))

/-- A row of the `top_passengers` report (query 6); rows with `NULL`
`total_spent` are filtered out before this row is formed. -/
structure PassengerRow where
  passengerId : Nat
  total_spent : ℚ
  trips_count : Nat
deriving DecidableEq, Repr

/-- The annotated row for one passenger in query 6, after the
`filter(total_spent__isnull=False)` step: `none` exactly when the
passenger has no tickets (SQL `Sum` over no rows is `NULL`). -/
def passengerRowOf (db : DB) (pid : Nat) : Option PassengerRow :=
  if (db.tickets.filter (fun tk => tk.passengerId == pid)).isEmpty then none
  else some
    { passengerId := pid,
      total_spent :=
        ((db.tickets.filter (fun tk => tk.passengerId == pid)).map
          (fun tk => tk.paid_amount)).sum,
      trips_count := (db.tickets.filter (fun tk => tk.passengerId == pid)).length }

/-- Query 6, `top_passengers`: annotate every passenger with
`total_spent = Sum('tickets__paid_amount')`, drop `NULL` rows,
`order_by('-total_spent')`, keep the first 10 rows. -/
def top_passengers (db : DB) : List PassengerRow :=
  (List.insertionSort (descOrd (fun r => some r.total_spent))
    (db.passengers.filterMap (fun p => passengerRowOf db p.id))).take 10

/-- A row of the `trip_occupancy` report (query 3). -/
structure OccupancyRow where
  tripId : Nat
  capacity : Nat
  sold_count : Nat
  occupancy_rate : Option ℚ
deriving DecidableEq, Repr

/-- The annotated row for one trip in query 3:
`occupancy_rate = sold_count * 100.0 / capacity`.  The query contains no
guard for `capacity = 0`; that branch models the backing store's division
by zero, which yields SQL `NULL` in SQLite. -/
def occupancyRowOf (db : DB) (t : Trip) : OccupancyRow :=
  let sold := (db.tickets.filter (fun tk => tk.tripId == t.id)).length
  { tripId := t.id, capacity := t.capacity, sold_count := sold,
    occupancy_rate :=
      if t.capacity = 0 then none else some ((sold : ℚ) * 100 / (t.capacity : ℚ)) }

/-- Query 3, `trip_occupancy`: every trip annotated with its sold count and
occupancy percentage, `order_by('-occupancy_rate')`. -/
def trip_occupancy (db : DB) : List OccupancyRow :=
  List.insertionSort (descOrd (fun r => r.occupancy_rate))
    (db.trips.map (occupancyRowOf db))

/-- Re-resolving an already-resolved base price changes nothing: after
`save` wrote `base_price`, the `price` property's truthiness test picks the
same base again. -/
lemma resolve_base_idem (bp : Option ℚ) (tp : Nat) :
    resolve_base (some (resolve_base bp tp)) tp = resolve_base bp tp := by
  rcases bp with _ | x
  · by_cases h : (tp : ℚ) = 0 <;> simp [resolve_base, truthy, h]
  · by_cases hx : x = 0
    · by_cases h : (tp : ℚ) = 0 <;> simp [resolve_base, truthy, hx, h]
    · simp [resolve_base, truthy, hx]

/-- `Ticket.price` applied to a resolved base is the raw-price formula
rounded to two decimals. -/
lemma price_resolved (bp : Option ℚ) (tp age : Nat) :
    Ticket.price (some (resolve_base bp tp)) tp age =
      roundHalfEven2 (resolve_base bp tp * Ticket.calculate_discount age * (1 + TAX)) := by
  unfold Ticket.price
  rw [resolve_base_idem]

/-- Unfolding `Ticket.save` for a fresh ticket (`pk = none`) once the two
foreign keys dereference. -/
lemma save_new_eq (db : DB) (d : TicketData) (newId now : Nat) (trip : Trip)
    (p : Passenger) (ht : findTrip db d.tripId = some trip)
    (hp : findPassenger db d.passengerId = some p) :
    Ticket.save db none d newId now =
      if Trip.available_seats db trip ≤ 0 then .error (.noSeatsAvailable trip.id)
      else .ok { db with tickets := db.tickets ++
        [mkSavedTicket d newId now (resolve_base d.base_price trip.price)
          (Ticket.price (some (resolve_base d.base_price trip.price)) trip.price p.age)] } := by
  unfold Ticket.save Ticket.clean
  rw [ht, hp]
  by_cases h : Trip.available_seats db trip ≤ 0 <;> simp [h]

/-- Unfolding `Ticket.save` for an already-persisted ticket (`pk = some i`):
`Ticket.clean` checks nothing, and the row is rewritten with a freshly
recomputed `paid_amount`. -/
lemma save_existing_eq (db : DB) (d : TicketData) (i newId now : Nat) (trip : Trip)
    (p : Passenger) (ht : findTrip db d.tripId = some trip)
    (hp : findPassenger db d.passengerId = some p) :
    Ticket.save db (some i) d newId now =
      .ok { db with tickets := db.tickets.map (fun u =>
        if u.id = i then
          mkSavedTicket d i d.purchase_date (resolve_base d.base_price trip.price)
            (Ticket.price (some (resolve_base d.base_price trip.price)) trip.price p.age)
        else u) } := by
  unfold Ticket.save Ticket.clean
  rw [ht, hp]

/-- C1: the discount policy is a pure function of passenger age: strictly
below 18 the factor is 0.5, strictly above 60 it is 0.7, and otherwise —
ages 18 through 60, the two edge values included — it is 1.0. -/
theorem discount_policy_correct (a : Nat) :
    (a < 18 → Ticket.calculate_discount a = 5/10) ∧
    (a > 60 → Ticket.calculate_discount a = 7/10) ∧
    (18 ≤ a → a ≤ 60 → Ticket.calculate_discount a = 1) := by
  unfold Ticket.calculate_discount
  refine ⟨fun h => by rw [if_pos h], fun h => ?_, fun h1 h2 => ?_⟩
  · rw [if_neg (by omega), if_pos h]
  · rw [if_neg (by omega), if_neg (by omega)]

/-- Witness for C1 at the edge ages 17, 61, 18 and 60. -/
theorem discount_policy_witness :
    Ticket.calculate_discount 17 = 5/10 ∧ Ticket.calculate_discount 61 = 7/10 ∧
    Ticket.calculate_discount 18 = 1 ∧ Ticket.calculate_discount 60 = 1 :=
  ⟨(discount_policy_correct 17).1 (by norm_num),
   (discount_policy_correct 61).2.1 (by norm_num),
   (discount_policy_correct 18).2.2 (by norm_num) (by norm_num),
   (discount_policy_correct 60).2.2 (by norm_num) (by norm_num)⟩

/-- C2: a successful creation appends exactly one row whose `paid_amount`
is `round(base * discount(age) * (1 + 0.2), 2)` in exact decimal
arithmetic with half-to-even rounding (`roundHalfEven2`), and the three
spec examples evaluate to 60.00, 84.00 and 120.00. -/
theorem price_computation_correct :
    (∀ (db : DB) (d : TicketData) (newId now : Nat) (trip : Trip) (p : Passenger)
       (db' : DB),
       findTrip db d.tripId = some trip → findPassenger db d.passengerId = some p →
       Ticket.save db none d newId now = .ok db' →
       db'.tickets = db.tickets ++
         [mkSavedTicket d newId now (resolve_base d.base_price trip.price)
            (roundHalfEven2 (resolve_base d.base_price trip.price *
              Ticket.calculate_discount p.age * (1 + TAX)))]) ∧
    Ticket.price (some 100) 0 10 = 60 ∧
    Ticket.price (some 100) 0 70 = 84 ∧
    Ticket.price (some 100) 0 30 = 120 := by
  refine ⟨?_, ?_, ?_, ?_⟩
  · intro db d newId now trip p db' ht hp hs
    rw [save_new_eq db d newId now trip p ht hp] at hs
    by_cases h : Trip.available_seats db trip ≤ 0
    · rw [if_pos h] at hs; cases hs
    · rw [if_neg h] at hs
      cases hs
      rw [price_resolved]
  all_goals
    norm_num [Ticket.price, resolve_base, truthy, roundHalfEven2,
      Ticket.calculate_discount, TAX]

/-- Concrete sample store used by several witnesses: one adult passenger,
one cashier, a trip with two seats, no tickets yet. -/
def sampleDB : DB :=
  { passengers := [{ id := 1, age := 30 }], cashiers := [{ id := 7 }],
    trips := [{ id := 1, price := 100, capacity := 2 }], tickets := [] }

/-- In-memory ticket data sold to passenger 1 for trip 1, base price unset. -/
def sampleData : TicketData :=
  { passengerId := 1, cashierId := some 7, tripId := 1, purchase_date := 0,
    base_price := none, payment_method := none }

/-- The store after the first creation in `sampleDB`. -/
def sampleDB1 : DB :=
  { sampleDB with tickets :=
      [{ id := 1, passengerId := 1, cashierId := some 7, tripId := 1, purchase_date := 5,
         base_price := some 100, paid_amount := 120, payment_method := none }] }

/-- Witness for C2: the creation in `sampleDB` stores `paid_amount`
rounded from `100 * 1.0 * 1.2`. -/
theorem price_computation_witness :
    sampleDB1.tickets = sampleDB.tickets ++
      [mkSavedTicket sampleData 1 5 (resolve_base sampleData.base_price 100)
        (roundHalfEven2 (resolve_base sampleData.base_price 100 *
          Ticket.calculate_discount 30 * (1 + TAX)))] :=
  price_computation_correct.1 sampleDB sampleData 1 5
    { id := 1, price := 100, capacity := 2 } { id := 1, age := 30 } sampleDB1
    (by norm_num [findTrip, sampleDB, sampleData])
    (by norm_num [findPassenger, sampleDB, sampleData])
    (by norm_num [Ticket.save, findTrip, findPassenger, Ticket.clean, Trip.available_seats,
      mkSavedTicket, Ticket.price, resolve_base, truthy, roundHalfEven2,
      Ticket.calculate_discount, TAX, sampleDB, sampleData, sampleDB1])

/-- The trip found by a foreign-key lookup carries the looked-up id. -/
lemma findTrip_id {db : DB} {tid : Nat} {trip : Trip}
    (h : findTrip db tid = some trip) : trip.id = tid := by
  unfold findTrip at h
  have h' := List.find?_some h
  simpa using h'

/-- Store with a single one-seat trip and no tickets. -/
def cap1DB : DB :=
  { passengers := [{ id := 1, age := 30 }], cashiers := [],
    trips := [{ id := 1, price := 100, capacity := 1 }], tickets := [] }

/-- Ticket data for the one-seat trip. -/
def cap1Data : TicketData :=
  { passengerId := 1, cashierId := none, tripId := 1, purchase_date := 0,
    base_price := none, payment_method := none }

/-- `cap1DB` after the one seat is sold. -/
def cap1DB1 : DB :=
  { cap1DB with tickets :=
      [{ id := 1, passengerId := 1, cashierId := none, tripId := 1, purchase_date := 5,
         base_price := some 100, paid_amount := 120, payment_method := none }] }

/-- C3: creating a ticket for a trip whose `available_seats ≤ 0` fails with
the no-seats error identifying the trip and persists nothing (the store is
returned unchanged inside the error path); for a one-seat trip the first
creation succeeds and the second fails. -/
theorem no_seats_guard_correct :
    (∀ (db : DB) (d : TicketData) (newId now : Nat) (trip : Trip) (p : Passenger),
       findTrip db d.tripId = some trip → findPassenger db d.passengerId = some p →
       Trip.available_seats db trip ≤ 0 →
       Ticket.save db none d newId now = .error (.noSeatsAvailable d.tripId)) ∧
    Ticket.save cap1DB none cap1Data 1 5 = .ok cap1DB1 ∧
    Ticket.save cap1DB1 none cap1Data 2 6 = .error (.noSeatsAvailable 1) := by
  refine ⟨?_, ?_, ?_⟩
  · intro db d newId now trip p ht hp hfull
    rw [save_new_eq db d newId now trip p ht hp, if_pos hfull, findTrip_id ht]
  all_goals
    norm_num [Ticket.save, findTrip, findPassenger, Ticket.clean, Trip.available_seats,
      mkSavedTicket, Ticket.price, resolve_base, truthy, roundHalfEven2,
      Ticket.calculate_discount, TAX, cap1DB, cap1Data, cap1DB1]

/-- Witness for C3: a third creation attempt against the full one-seat trip
fails with the no-seats error. -/
theorem no_seats_guard_witness :
    Ticket.save cap1DB1 none cap1Data 3 7 = .error (.noSeatsAvailable 1) :=
  no_seats_guard_correct.1 cap1DB1 cap1Data 3 7
    { id := 1, price := 100, capacity := 1 } { id := 1, age := 30 }
    (by norm_num [findTrip, cap1DB1, cap1DB, cap1Data])
    (by norm_num [findPassenger, cap1DB1, cap1DB, cap1Data])
    (by norm_num [Trip.available_seats, cap1DB1, cap1DB])

/-- C5: the truthiness test in `Ticket.price`/`Ticket.save` treats an unset
`base_price` and an explicit 0 identically — both fall back to the trip's
fare — while a non-zero `base_price` is used as supplied; the created row
stores the resolved base. -/
theorem base_price_fallback_correct :
    (∀ tp : Nat, resolve_base none tp = (tp : ℚ)) ∧
    (∀ tp : Nat, resolve_base (some 0) tp = (tp : ℚ)) ∧
    (∀ (tp : Nat) (x : ℚ), x ≠ 0 → resolve_base (some x) tp = x) ∧
    (∀ (db : DB) (d : TicketData) (newId now : Nat) (trip : Trip) (p : Passenger)
       (db' : DB),
       findTrip db d.tripId = some trip → findPassenger db d.passengerId = some p →
       Ticket.save db none d newId now = .ok db' →
       ∃ tk ∈ db'.tickets, tk.id = newId ∧
         tk.base_price = some (resolve_base d.base_price trip.price)) := by
  refine ⟨fun tp => rfl, fun tp => by simp [resolve_base, truthy],
    fun tp x hx => by simp [resolve_base, truthy, hx], ?_⟩
  intro db d newId now trip p db' ht hp hs
  rw [save_new_eq db d newId now trip p ht hp] at hs
  by_cases h : Trip.available_seats db trip ≤ 0
  · rw [if_pos h] at hs; cases hs
  · rw [if_neg h] at hs
    cases hs
    refine ⟨mkSavedTicket d newId now (resolve_base d.base_price trip.price)
      (Ticket.price (some (resolve_base d.base_price trip.price)) trip.price p.age),
      by simp, by simp [mkSavedTicket], by simp [mkSavedTicket]⟩

/-- Witness for C5: a zero base price falls back to fare 100, a base price
of 55 is kept, and the row created in `sampleDB` stores the trip's fare. -/
theorem base_price_fallback_witness :
    resolve_base (some 0) 100 = (100 : ℚ) ∧
    resolve_base (some 55) 100 = (55 : ℚ) ∧
    ∃ tk ∈ sampleDB1.tickets, tk.id = 1 ∧ tk.base_price = some (resolve_base none 100) :=
  ⟨base_price_fallback_correct.2.1 100,
   base_price_fallback_correct.2.2.1 100 55 (by norm_num),
   base_price_fallback_correct.2.2.2 sampleDB sampleData 1 5
     { id := 1, price := 100, capacity := 2 } { id := 1, age := 30 } sampleDB1
     (by norm_num [findTrip, sampleDB, sampleData])
     (by norm_num [findPassenger, sampleDB, sampleData])
     (by norm_num [Ticket.save, findTrip, findPassenger, Ticket.clean,
       Trip.available_seats, mkSavedTicket, Ticket.price, resolve_base, truthy,
       roundHalfEven2, Ticket.calculate_discount, TAX, sampleDB, sampleData, sampleDB1])⟩

/-- Does a save result surface the no-seats validation error? -/
def isNoSeatsErr : Except SaveError DB → Bool
  | .error (.noSeatsAvailable _) => true
  | _ => false

/-- C10: `Ticket.clean` only checks availability when the primary key is
unset, so saving an already-persisted ticket never surfaces the no-seats
error, even when the referenced trip currently has `available_seats ≤ 0`. -/
theorem resave_skips_seat_check (db : DB) (i : Nat) (d : TicketData)
    (newId now : Nat) (trip : Trip) (ht : findTrip db d.tripId = some trip)
    (_hfull : Trip.available_seats db trip ≤ 0) :
    isNoSeatsErr (Ticket.save db (some i) d newId now) = false := by
  unfold Ticket.save Ticket.clean
  rw [ht]
  cases hp : findPassenger db d.passengerId <;> simp [isNoSeatsErr]

/-- Witness for C10: re-saving the persisted ticket of the sold-out
one-seat trip raises no seat error. -/
theorem resave_skips_seat_check_witness :
    isNoSeatsErr (Ticket.save cap1DB1 (some 1) cap1Data 0 9) = false :=
  resave_skips_seat_check cap1DB1 1 cap1Data 0 9
    { id := 1, price := 100, capacity := 1 }
    (by norm_num [findTrip, cap1DB1, cap1DB, cap1Data])
    (by norm_num [Trip.available_seats, cap1DB1, cap1DB])

/-- `paid_amount` of the ticket with a given primary key, if present. -/
def paid_of (db : DB) (tid : Nat) : Option ℚ :=
  (db.tickets.find? (fun tk => tk.id == tid)).map (fun tk => tk.paid_amount)

/-- The in-memory field values of the ticket persisted in `sampleDB1`, as
loaded back from the store (`base_price` now set to 100). -/
def sampleData1 : TicketData :=
  { passengerId := 1, cashierId := some 7, tripId := 1, purchase_date := 5,
    base_price := some 100, payment_method := none }

/-- `sampleDB1` after the passenger's age is edited to 10 and the ticket is
then saved again: `save` recomputes `paid_amount` with the new discount. -/
def sampleDB2 : DB :=
  { passengers := [{ id := 1, age := 10 }], cashiers := [{ id := 7 }],
    trips := [{ id := 1, price := 100, capacity := 2 }],
    tickets :=
      [{ id := 1, passengerId := 1, cashierId := some 7, tripId := 1, purchase_date := 5,
         base_price := some 100, paid_amount := 60, payment_method := none }] }

/-- C4 counterexample: a ticket is created at `paid_amount = 120.00`; the
passenger's age is then edited to 10 and the ticket is saved again (as any
repository `update` on it does) — `Ticket.save` recomputes `paid_amount`,
which becomes 60.00.  So `paid_amount` is not frozen against later
operations when the discount input changes. -/
theorem paid_amount_frozen_counterexample :
    paid_of sampleDB1 1 = some 120 ∧
    Ticket.save (Passenger.update_age sampleDB1 1 10) (some 1) sampleData1 0 9 =
      .ok sampleDB2 ∧
    paid_of sampleDB2 1 = some 60 ∧
    (60 : ℚ) ≠ 120 := by
  refine ⟨by norm_num [paid_of, sampleDB1, sampleDB], ?_,
    by norm_num [paid_of, sampleDB2, sampleDB], by norm_num⟩
  norm_num [Ticket.save, findTrip, findPassenger, Ticket.clean, Trip.available_seats,
    mkSavedTicket, Ticket.price, resolve_base, truthy, roundHalfEven2,
    Ticket.calculate_discount, TAX, Passenger.update_age, sampleDB1, sampleDB,
    sampleData1, sampleDB2]

/-- C4 amended: editing the trip's price or the passenger's record alone
never changes any stored `paid_amount`; but every save of an
already-persisted ticket recomputes `paid_amount` from the stored
`base_price` and the passenger's current age, so the amount is frozen only
as long as the ticket itself is not saved again. -/
theorem paid_amount_freeze_amended :
    (∀ (db : DB) (tid np : Nat), (Trip.update_price db tid np).tickets = db.tickets) ∧
    (∀ (db : DB) (pid na : Nat), (Passenger.update_age db pid na).tickets = db.tickets) ∧
    (∀ (db : DB) (i : Nat) (d : TicketData) (newId now : Nat) (trip : Trip)
       (p : Passenger),
       findTrip db d.tripId = some trip → findPassenger db d.passengerId = some p →
       Ticket.save db (some i) d newId now =
         .ok { db with tickets := db.tickets.map (fun u =>
           if u.id = i then
             mkSavedTicket d i d.purchase_date (resolve_base d.base_price trip.price)
               (roundHalfEven2 (resolve_base d.base_price trip.price *
                 Ticket.calculate_discount p.age * (1 + TAX)))
           else u) }) := by
  refine ⟨fun db tid np => rfl, fun db pid na => rfl, ?_⟩
  intro db i d newId now trip p ht hp
  rw [save_existing_eq db d i newId now trip p ht hp, price_resolved]

/-- Witness for C4 amended: re-saving the ticket in the age-edited store
rewrites its row with the recomputed `paid_amount`. -/
theorem paid_amount_freeze_amended_witness :
    Ticket.save (Passenger.update_age sampleDB1 1 10) (some 1) sampleData1 0 9 =
      .ok { Passenger.update_age sampleDB1 1 10 with
            tickets := (Passenger.update_age sampleDB1 1 10).tickets.map (fun u =>
              if u.id = 1 then
                mkSavedTicket sampleData1 1 5 (resolve_base sampleData1.base_price 100)
                  (roundHalfEven2 (resolve_base sampleData1.base_price 100 *
                    Ticket.calculate_discount 10 * (1 + TAX)))
              else u) } :=
  paid_amount_freeze_amended.2.2 (Passenger.update_age sampleDB1 1 10) 1 sampleData1 0 9
    { id := 1, price := 100, capacity := 2 } { id := 1, age := 10 }
    (by norm_num [findTrip, Passenger.update_age, sampleDB1, sampleDB, sampleData1])
    (by norm_num [findPassenger, Passenger.update_age, sampleDB1, sampleDB, sampleData1])

/-- Comparing two non-null SQL values is the plain rational order. -/
lemma obotLE_some_some {x y : ℚ} : obotLE (some x) (some y) = true ↔ x ≤ y := by
  simp [obotLE]

/-- A row query 6 keeps determines its passenger id. -/
lemma passengerRowOf_id {db : DB} {pid : Nat} {r : PassengerRow}
    (h : passengerRowOf db pid = some r) : r.passengerId = pid := by
  unfold passengerRowOf at h
  split at h
  · cases h
  · cases h; rfl

/-- A row query 6 keeps comes from a passenger with at least one ticket,
and its aggregates are the sum and count over exactly that passenger's
tickets. -/
lemma passengerRowOf_spec {db : DB} {pid : Nat} {r : PassengerRow}
    (h : passengerRowOf db pid = some r) :
    db.tickets.filter (fun tk => tk.passengerId == pid) ≠ [] ∧
    r.total_spent =
      ((db.tickets.filter (fun tk => tk.passengerId == pid)).map
        (fun tk => tk.paid_amount)).sum ∧
    r.trips_count = (db.tickets.filter (fun tk => tk.passengerId == pid)).length := by
  unfold passengerRowOf at h
  split at h
  · cases h
  · next he =>
      cases h
      refine ⟨?_, rfl, rfl⟩
      simpa [List.isEmpty_iff] using he

/-- C6: the revenue report has one row per trip; each row's
`total_revenue` is the sum of `paid_amount` over exactly the tickets
referencing that trip (`NULL` when the trip has no tickets — the trip is
still listed); rows are ordered descending by revenue. -/
theorem revenue_by_trip_correct (db : DB) :
    (revenue_by_trip db).length = db.trips.length ∧
    (∀ t ∈ db.trips, revenueRowOf db t.id ∈ revenue_by_trip db) ∧
    (∀ r ∈ revenue_by_trip db,
       (db.tickets.filter (fun tk => tk.tripId == r.tripId) = [] →
          r.total_revenue = none) ∧
       (db.tickets.filter (fun tk => tk.tripId == r.tripId) ≠ [] →
          r.total_revenue =
            some ((db.tickets.filter (fun tk => tk.tripId == r.tripId)).map
              (fun tk => tk.paid_amount)).sum) ∧
       r.tickets_sold = (db.tickets.filter (fun tk => tk.tripId == r.tripId)).length) ∧
    List.Sorted (descOrd (fun r => r.total_revenue)) (revenue_by_trip db) := by
  have hperm := List.perm_insertionSort (descOrd (fun r : RevenueRow => r.total_revenue))
    (db.trips.map (fun t => revenueRowOf db t.id))
  refine ⟨?_, ?_, ?_, List.sorted_insertionSort _ _⟩
  · rw [revenue_by_trip, hperm.length_eq, List.length_map]
  · intro t ht
    rw [revenue_by_trip, hperm.mem_iff]
    exact List.mem_map_of_mem _ ht
  · intro r hr
    rw [revenue_by_trip, hperm.mem_iff] at hr
    obtain ⟨t, _, rfl⟩ := List.mem_map.1 hr
    show (db.tickets.filter (fun tk => tk.tripId == t.id) = [] → _) ∧ _
    unfold revenueRowOf
    refine ⟨fun he => by simp [he], fun he => by simp [he], rfl⟩

/-- C7: the top-passengers report returns at most 10 rows, every row
belongs to a passenger holding at least one ticket (ticketless passengers
are excluded), each row aggregates exactly that passenger's tickets, and
rows are ordered descending by `total_spent`. -/
theorem top_passengers_correct (db : DB) :
    (top_passengers db).length ≤ 10 ∧
    (∀ r ∈ top_passengers db, passengerRowOf db r.passengerId = some r) ∧
    (∀ r ∈ top_passengers db, ∃ tk ∈ db.tickets, tk.passengerId = r.passengerId) ∧
    (∀ p ∈ db.passengers,
       db.tickets.filter (fun tk => tk.passengerId == p.id) = [] →
       ∀ r ∈ top_passengers db, r.passengerId ≠ p.id) ∧
    List.Sorted (fun r1 r2 => r2.total_spent ≤ r1.total_spent) (top_passengers db) := by
  have hperm := List.perm_insertionSort
    (descOrd (fun r : PassengerRow => some r.total_spent))
    (db.passengers.filterMap (fun p => passengerRowOf db p.id))
  have hmem : ∀ r ∈ top_passengers db, passengerRowOf db r.passengerId = some r := by
    intro r hr
    have hr' : r ∈ (db.passengers.filterMap (fun p => passengerRowOf db p.id)) := by
      rw [← hperm.mem_iff]
      exact List.mem_of_mem_take (by simpa [top_passengers] using hr)
    obtain ⟨p, _, hp⟩ := List.mem_filterMap.1 hr'
    rwa [passengerRowOf_id hp]
  refine ⟨?_, hmem, ?_, ?_, ?_⟩
  · rw [top_passengers]
    exact List.length_take_le 10 _
  · intro r hr
    obtain ⟨hne, -, -⟩ := passengerRowOf_spec (hmem r hr)
    obtain ⟨tk, htk⟩ := List.exists_mem_of_ne_nil _ hne
    have := List.mem_filter.1 htk
    exact ⟨tk, this.1, by simpa using this.2⟩
  · intro p _ hempty r hr hid
    obtain ⟨hne, -, -⟩ := passengerRowOf_spec (hmem r hr)
    rw [hid] at hne
    exact hne hempty
  · have hs := List.sorted_insertionSort
      (descOrd (fun r : PassengerRow => some r.total_spent))
      (db.passengers.filterMap (fun p => passengerRowOf db p.id))
    exact (hs.take).imp (fun h => obotLE_some_some.1 h)

/-- C8 (amended): the occupancy report has one row per trip; when
`capacity` is non-zero the rate is `sold_count * 100 / capacity`, rows are
ordered descending by rate — but for a zero capacity the rate is the
store's `NULL` result of dividing by zero: the query contains no explicit
guard. -/
theorem trip_occupancy_amended (db : DB) :
    (trip_occupancy db).length = db.trips.length ∧
    (∀ t ∈ db.trips, occupancyRowOf db t ∈ trip_occupancy db) ∧
    (∀ r ∈ trip_occupancy db,
       (r.capacity ≠ 0 →
          r.occupancy_rate = some ((r.sold_count : ℚ) * 100 / (r.capacity : ℚ))) ∧
       (r.capacity = 0 → r.occupancy_rate = none)) ∧
    List.Sorted (descOrd (fun r => r.occupancy_rate)) (trip_occupancy db) := by
  have hperm := List.perm_insertionSort (descOrd (fun r : OccupancyRow => r.occupancy_rate))
    (db.trips.map (occupancyRowOf db))
  refine ⟨?_, ?_, ?_, List.sorted_insertionSort _ _⟩
  · rw [trip_occupancy, hperm.length_eq, List.length_map]
  · intro t ht
    rw [trip_occupancy, hperm.mem_iff]
    exact List.mem_map_of_mem _ ht
  · intro r hr
    rw [trip_occupancy, hperm.mem_iff] at hr
    obtain ⟨t, _, rfl⟩ := List.mem_map.1 hr
    unfold occupancyRowOf
    constructor
    · intro hc
      simp only [occupancyRowOf] at hc ⊢
      rw [if_neg hc]
    · intro hc
      simp only [occupancyRowOf] at hc ⊢
      rw [if_pos hc]

/-- Store holding a zero-capacity trip with one (directly inserted)
ticket: the occupancy query's division falls through to the store. -/
def occZeroDB : DB :=
  { passengers := [{ id := 1, age := 30 }], cashiers := [],
    trips := [{ id := 1, price := 100, capacity := 0 }],
    tickets :=
      [{ id := 1, passengerId := 1, cashierId := none, tripId := 1, purchase_date := 0,
         base_price := some 100, paid_amount := 120, payment_method := none }] }

/-- C8 counterexample: for a zero-capacity trip the report row's
`occupancy_rate` is the store's `NULL` (division by zero), not any
explicitly guarded value — the claimed guard does not exist in the code. -/
theorem occupancy_guard_counterexample :
    trip_occupancy occZeroDB =
      [{ tripId := 1, capacity := 0, sold_count := 1, occupancy_rate := none }] := by
  norm_num [trip_occupancy, occZeroDB, occupancyRowOf, List.insertionSort,
    List.orderedInsert]

/-- C9: deleting a passenger cascades — every ticket referencing the
passenger disappears and all others survive — while deleting a cashier
keeps every ticket, nulling exactly the matching cashier references and
touching no other ticket field. -/
theorem delete_semantics_correct (db : DB) (pid cid : Nat) :
    (∀ tk ∈ db.tickets, tk.passengerId = pid → tk ∉ (Passenger.delete db pid).tickets) ∧
    (∀ tk ∈ db.tickets, tk.passengerId ≠ pid → tk ∈ (Passenger.delete db pid).tickets) ∧
    (∀ tk ∈ (Passenger.delete db pid).tickets, tk ∈ db.tickets ∧ tk.passengerId ≠ pid) ∧
    ((Cashier.delete db cid).tickets = db.tickets.map (nullifyCashier cid)) ∧
    (∀ tk : Ticket,
       (tk.cashierId = some cid → nullifyCashier cid tk = { tk with cashierId := none }) ∧
       (tk.cashierId ≠ some cid → nullifyCashier cid tk = tk) ∧
       (nullifyCashier cid tk).id = tk.id ∧
       (nullifyCashier cid tk).passengerId = tk.passengerId ∧
       (nullifyCashier cid tk).tripId = tk.tripId ∧
       (nullifyCashier cid tk).purchase_date = tk.purchase_date ∧
       (nullifyCashier cid tk).base_price = tk.base_price ∧
       (nullifyCashier cid tk).paid_amount = tk.paid_amount ∧
       (nullifyCashier cid tk).payment_method = tk.payment_method) := by
  refine ⟨?_, ?_, ?_, rfl, ?_⟩
  · intro tk h hpid
    simp [Passenger.delete, List.mem_filter, hpid]
  · intro tk h hpid
    simp [Passenger.delete, List.mem_filter, h, hpid]
  · intro tk h
    simpa [Passenger.delete, List.mem_filter] using h
  · intro tk
    by_cases h : tk.cashierId = some cid <;> simp [nullifyCashier, h]

/-- A ticket sold by cashier 7 to passenger 1 on trip 1. -/
def reportTicket1 : Ticket :=
  { id := 1, passengerId := 1, cashierId := some 7, tripId := 1, purchase_date := 0,
    base_price := some 100, paid_amount := 120, payment_method := none }

/-- A second ticket on trip 1 for passenger 1, sold with no cashier. -/
def reportTicket2 : Ticket :=
  { id := 2, passengerId := 1, cashierId := none, tripId := 1, purchase_date := 1,
    base_price := some 100, paid_amount := 120, payment_method := none }

/-- Concrete store exercising the report queries: passenger 2 and trip 2
have no tickets. -/
def reportDB : DB :=
  { passengers := [{ id := 1, age := 30 }, { id := 2, age := 70 }],
    cashiers := [{ id := 7 }],
    trips := [{ id := 1, price := 100, capacity := 2 }, { id := 2, price := 50, capacity := 5 }],
    tickets := [reportTicket1, reportTicket2] }

/-- Witness for C6: in `reportDB` the report has a row per trip, the
ticketless trip 2 appears with a `NULL` revenue, and the rows are ordered
descending. -/
theorem revenue_by_trip_witness :
    (revenue_by_trip reportDB).length = reportDB.trips.length ∧
    revenueRowOf reportDB 2 ∈ revenue_by_trip reportDB ∧
    (revenueRowOf reportDB 2).total_revenue = none ∧
    List.Sorted (descOrd (fun r => r.total_revenue)) (revenue_by_trip reportDB) := by
  have h := revenue_by_trip_correct reportDB
  have ht2 : ({ id := 2, price := 50, capacity := 5 } : Trip) ∈ reportDB.trips := by
    simp [reportDB]
  have hmem := h.2.1 _ ht2
  exact ⟨h.1, hmem,
    (h.2.2.1 _ hmem).1 (by simp [reportDB, reportTicket1, reportTicket2, revenueRowOf]),
    h.2.2.2⟩

/-- Witness for C7: in `reportDB` the report is short, aggregates passenger
1's two tickets, excludes the ticketless passenger 2, and is sorted. -/
theorem top_passengers_witness :
    (top_passengers reportDB).length ≤ 10 ∧
    passengerRowOf reportDB 1 =
      some { passengerId := 1, total_spent := 240, trips_count := 2 } ∧
    ({ passengerId := 1, total_spent := 240, trips_count := 2 } : PassengerRow).passengerId ≠ 2 ∧
    List.Sorted (fun r1 r2 => r2.total_spent ≤ r1.total_spent) (top_passengers reportDB) := by
  have h := top_passengers_correct reportDB
  have hr0 : ({ passengerId := 1, total_spent := 240, trips_count := 2 } : PassengerRow) ∈
      top_passengers reportDB := by
    norm_num [top_passengers, reportDB, reportTicket1, reportTicket2, passengerRowOf,
      List.insertionSort, List.orderedInsert, descOrd, obotLE]
  exact ⟨h.1, h.2.1 _ hr0,
    h.2.2.2.1 { id := 2, age := 70 } (by simp [reportDB])
      (by simp [reportDB, reportTicket1, reportTicket2]) _ hr0,
    h.2.2.2.2⟩

/-- Witness for C8 (amended): in `reportDB` both trips are listed, trip 1's
rate is computed by the division formula, and rows are ordered. -/
theorem trip_occupancy_witness :
    (trip_occupancy reportDB).length = reportDB.trips.length ∧
    occupancyRowOf reportDB { id := 2, price := 50, capacity := 5 } ∈ trip_occupancy reportDB ∧
    (occupancyRowOf reportDB { id := 1, price := 100, capacity := 2 }).occupancy_rate =
      some (((occupancyRowOf reportDB { id := 1, price := 100, capacity := 2 }).sold_count : ℚ)
        * 100 /
        ((occupancyRowOf reportDB { id := 1, price := 100, capacity := 2 }).capacity : ℚ)) ∧
    List.Sorted (descOrd (fun r => r.occupancy_rate)) (trip_occupancy reportDB) := by
  have h := trip_occupancy_amended reportDB
  have ht1 : ({ id := 1, price := 100, capacity := 2 } : Trip) ∈ reportDB.trips := by
    simp [reportDB]
  have ht2 : ({ id := 2, price := 50, capacity := 5 } : Trip) ∈ reportDB.trips := by
    simp [reportDB]
  exact ⟨h.1, h.2.1 _ ht2,
    (h.2.2.1 _ (h.2.1 _ ht1)).1 (by simp [occupancyRowOf, reportDB]), h.2.2.2⟩

/-- Witness for C9: deleting passenger 1 removes `reportTicket1`; deleting
cashier 7 nulls `reportTicket1`'s cashier, leaves `reportTicket2` intact,
and rewrites the table by `nullifyCashier`. -/
theorem delete_semantics_witness :
    reportTicket1 ∉ (Passenger.delete reportDB 1).tickets ∧
    nullifyCashier 7 reportTicket1 = { reportTicket1 with cashierId := none } ∧
    nullifyCashier 7 reportTicket2 = reportTicket2 ∧
    (Cashier.delete reportDB 7).tickets = reportDB.tickets.map (nullifyCashier 7) := by
  have h := delete_semantics_correct reportDB 1 7
  exact ⟨h.1 reportTicket1 (by simp [reportDB]) rfl,
    (h.2.2.2.2 reportTicket1).1 rfl,
    (h.2.2.2.2 reportTicket2).2.1 (by simp [reportTicket2]),
    h.2.2.2.1⟩
